import Mathlib

/-!
# xdg-desktop-portal-copy-file: a shallow embedding of `main.go`

The program asks the desktop portal for a "Save File" dialog over the session
bus, waits for the response signal and copies the source file to the chosen
path.  Every call that leaves the program (operating system, bus library,
URL library) is recorded as an `Event`; what those calls answer is supplied
by an environment `Env`.  A run of a function is a `Run`: the events it
produced, in order, and how it ended.
-/

namespace PortalCopy

/-! ## Go strings and byte slices -/

/-- One byte. -/
abbrev Byte := Fin 256

/-- A Go `string`: an immutable sequence of bytes (not necessarily valid UTF-8).
`[]byte(s)` is the same sequence. -/
abbrev GoString := List Byte

/-- UTF-8 encoding of one code point, as the Go compiler stores the characters
of a string literal. -/
def utf8EncodeRune (n : Nat) : List Byte :=
  if n < 0x80 then [Fin.ofNat n]
  else if n < 0x800 then [Fin.ofNat (0xC0 + n / 64), Fin.ofNat (0x80 + n % 64)]
  else if n < 0x10000 then
    [Fin.ofNat (0xE0 + n / 4096), Fin.ofNat (0x80 + n / 64 % 64), Fin.ofNat (0x80 + n % 64)]
  else
    [Fin.ofNat (0xF0 + n / 262144), Fin.ofNat (0x80 + n / 4096 % 64),
     Fin.ofNat (0x80 + n / 64 % 64), Fin.ofNat (0x80 + n % 64)]

/-- The Go string denoted by a string literal of the source. -/
def str (s : String) : GoString :=
  s.toList.foldr (fun c acc => utf8EncodeRune c.toNat ++ acc) []

/-- The Go literal `"\000"`: one NUL byte. -/
def nulString : GoString := [0]

/-- A Go `error` value, identified by its message. -/
structure GoError where
  msg : GoString
  deriving DecidableEq, Repr

/-- Go `errors.New`. -/
def errorsNew (msg : GoString) : GoError := ⟨msg⟩

/-! ## Bus values -/

/-- Modelled from the spec: `dbus.Variant` of the bus library, which is not part
of the source tree.  A variant is a self-describing value; the shapes are the
transport values the spec lists (string, byte sequence, unsigned integer,
sequence of strings). -/
inductive Variant where
  | string (s : GoString)
  | bytes (b : List Byte)
  | uint32 (n : Nat)
  | strings (xs : List GoString)
  deriving DecidableEq, Repr

/-- Go `dbus.MakeVariant` applied to a `string`. -/
def makeVariantString (s : GoString) : Variant := Variant.string s

/-- Go `dbus.MakeVariant` applied to a `[]byte`. -/
def makeVariantBytes (b : List Byte) : Variant := Variant.bytes b

/-- A Go `map[string]dbus.Variant`, as the list of its entries; a key is looked
up with `List.lookup`. -/
abbrev VariantMap := List (GoString × Variant)

/-- A value travelling as a positional argument of a remote call or as an
element of a signal body (`interface{}` in the bus library). -/
inductive Value where
  | string (s : GoString)
  | uint32 (n : Nat)
  | dict (m : VariantMap)
  deriving DecidableEq, Repr

/-- The body of a signal (`[]interface{}` in the bus library).  The program
never inspects it itself: it hands it to `dbus.Store`. -/
abbrev Body := List Value

/-- Go `dbus.Signal`: the fields the program reads. -/
structure Signal where
  Name : GoString
  Body : Body
  deriving DecidableEq, Repr

/-- Go `url.URL`: the fields of the standard library structure that hold text. -/
structure URL where
  Scheme : GoString := []
  Opaque : GoString := []
  Host : GoString := []
  Path : GoString := []
  RawQuery : GoString := []
  Fragment : GoString := []
  deriving DecidableEq, Repr

/-! ## The operating system -/

/-- What kind of file a path names (the type bits of `os.FileMode`). -/
inductive FileKind where
  | regular
  | directory
  | device
  | fifo
  | socket
  deriving DecidableEq, Repr

/-- Go `os.FileInfo`. -/
structure FileInfo where
  kind : FileKind
  deriving DecidableEq, Repr

/-- Go `FileInfo.IsDir`. -/
def FileInfo.IsDir (info : FileInfo) : Bool :=
  decide (info.kind = FileKind.directory)

/-- The two results of `os.Stat`: `(info, nil)`, or `(nil, err)` where
`notExist` tells whether `os.IsNotExist(err)` holds. -/
inductive StatResult where
  | ok (info : FileInfo)
  | error (notExist : Bool) (err : GoError)
  deriving DecidableEq, Repr

/-! ## Events, outcomes and runs -/

/-- A call that leaves the program. -/
inductive Event where
  | println (line : GoString)
  | stat (path : GoString)
  | sessionBus
  | object (dest : GoString) (path : GoString)
  | call (method : GoString) (flags : Nat) (args : List Value)
  | signalSubscribe
  | receive
  | store (body : Body)
  | urlParse (rawurl : GoString)
  | osOpen (path : GoString)
  | osCreate (path : GoString)
  | ioCopy (dst : GoString) (src : GoString)
  deriving DecidableEq, Repr

/-- The value a Go `panic` carries. -/
inductive PanicValue where
  | text (s : GoString)
  | error (e : GoError)
  | nilDereference
  | typeAssertion
  deriving DecidableEq, Repr

/-- How a function call ends: it returns a value, it panics, the process exits
through `os.Exit`, or it blocks forever on a channel. -/
inductive Res (α : Type) where
  | ok (a : α)
  | panic (p : PanicValue)
  | exit (code : Nat)
  | block
  deriving DecidableEq, Repr

/-- A run: the events produced, in order, and the way it ended. -/
structure Run (α : Type) where
  trace : List Event
  res : Res α
  deriving DecidableEq, Repr

/-- Sequencing of runs: the second part runs only when the first returned. -/
def Run.bind {α β : Type} (r : Run α) (f : α → Run β) : Run β :=
  match r.res with
  | Res.ok a => ⟨r.trace ++ (f a).trace, (f a).res⟩
  | Res.panic p => ⟨r.trace, Res.panic p⟩
  | Res.exit c => ⟨r.trace, Res.exit c⟩
  | Res.block => ⟨r.trace, Res.block⟩

/-- The answers of the outside world during one run of the program. -/
structure Env where
  /-- Go `os.Args`: the program name followed by the arguments. -/
  args : List GoString
  /-- Go `os.Stat`. -/
  stat : GoString → StatResult
  /-- The error of `dbus.SessionBus()`, if any. -/
  sessionBus : Option GoError
  /-- The `Err` field of the call object returned by `BusObject.Call`. -/
  callErr : GoString → Nat → List Value → Option GoError
  /-- What the signal channel delivers, in order: `some s` is a signal, `none` a
  nil pointer (the channel was closed); after the last entry nothing arrives. -/
  signals : List (Option Signal)
  /-- Go `dbus.Store(body, &response, &results)`. -/
  store : Body → Except GoError (Nat × VariantMap)
  /-- Go `url.Parse`. -/
  urlParse : GoString → Except GoError URL
  /-- The error of `os.Open`, if any. -/
  osOpen : GoString → Option GoError
  /-- The error of `os.Create`, if any. -/
  osCreate : GoString → Option GoError
  /-- The error of `io.Copy(to, from)`, if any. -/
  ioCopy : GoString → GoString → Option GoError

/-! ## The functions of `main.go` -/

/-- Go `copyFile` (main.go 14-32). -/
def copyFile (env : Env) (src : GoString) (dest : GoString) : Run (Option GoError) :=
  match env.osOpen src with
  | some err => ⟨[Event.osOpen src], Res.ok (some err)⟩
  | none =>
    match env.osCreate dest with
    | some err => ⟨[Event.osOpen src, Event.osCreate dest], Res.ok (some err)⟩
    | none =>
      match env.ioCopy dest src with
      | some err =>
        ⟨[Event.osOpen src, Event.osCreate dest, Event.ioCopy dest src], Res.ok (some err)⟩
      | none =>
        ⟨[Event.osOpen src, Event.osCreate dest, Event.ioCopy dest src], Res.ok none⟩

/-- The bus name of the portal (main.go 41). -/
def portalBusName : GoString := str "org.freedesktop.portal.Desktop"

/-- The object path of the portal (main.go 42). -/
def portalObjectPath : GoString := str "/org/freedesktop/portal/desktop"

/-- Go `desktopPortal` (main.go 39-44): binds the remote object; cannot fail. -/
def desktopPortal : Run Unit :=
  ⟨[Event.object portalBusName portalObjectPath], Res.ok ()⟩

/-- The method name of the save dialog request (main.go 52). -/
def saveFileMethod : GoString := str "org.freedesktop.portal.FileChooser.SaveFile"

/-- The option key `current_name` (main.go 49). -/
def currentNameKey : GoString := str "current_name"

/-- The option key `current_folder` (main.go 50). -/
def currentFolderKey : GoString := str "current_folder"

/-- The `dest` byte slice of `saveFile` (main.go 47): `[]byte(folder + "\000")`. -/
def saveFileDest (folder : GoString) : List Byte := folder ++ nulString

/-- The `options` map of `saveFile` (main.go 48-50). -/
def saveFileOptions (folder : GoString) (name : GoString) : VariantMap :=
  [(currentNameKey, makeVariantString name),
   (currentFolderKey, makeVariantBytes (saveFileDest folder))]

/-- The positional arguments of the remote call of `saveFile` (main.go 54-56). -/
def saveFileArgs (folder : GoString) (name : GoString) : List Value :=
  [Value.string (str ""), Value.string (str "Choose Location"),
   Value.dict (saveFileOptions folder name)]

/-- Go `saveFile` (main.go 46-61). -/
def saveFile (env : Env) (folder : GoString) (name : GoString) : Run (Option GoError) :=
  ⟨[Event.call saveFileMethod 0 (saveFileArgs folder name)],
   Res.ok (env.callErr saveFileMethod 0 (saveFileArgs folder name))⟩

/-- The name of the response signal (main.go 68). -/
def responseSignalName : GoString := str "org.freedesktop.portal.Request.Response"

/-- Go `awaitResponse` (main.go 63-79).  The channel receive blocks when nothing
arrives; reading `signal.Name` through a nil pointer panics. -/
def awaitResponse (env : Env) : Run (Nat × VariantMap × Option GoError) :=
  match env.signals with
  | [] => ⟨[Event.signalSubscribe, Event.receive], Res.block⟩
  | none :: _ =>
    ⟨[Event.signalSubscribe, Event.receive], Res.panic PanicValue.nilDereference⟩
  | some signal :: _ =>
    if signal.Name ≠ responseSignalName then
      ⟨[Event.signalSubscribe, Event.receive],
       Res.ok (0, [], some (errorsNew (str "Unexpected response")))⟩
    else
      match env.store signal.Body with
      | Except.error err =>
        ⟨[Event.signalSubscribe, Event.receive, Event.store signal.Body],
         Res.ok (0, [], some err)⟩
      | Except.ok (response, results) =>
        ⟨[Event.signalSubscribe, Event.receive, Event.store signal.Body],
         Res.ok (response, results, none)⟩

/-- The key `uris` of the results map (main.go 82). -/
def urisKey : GoString := str "uris"

/-- Go `parseFileChooserResults` (main.go 81-91).  The pointer result is `none`
for a nil pointer; `&url.URL{}` is the URL with every field empty.  The type
assertion `.([]string)` has no second result, so it panics on any other
dynamic type. -/
def parseFileChooserResults (env : Env) (results : VariantMap) :
    Run (Option URL × Option GoError) :=
  match results.lookup urisKey with
  | none => ⟨[], Res.ok (some {}, some (errorsNew (str "No uris in results")))⟩
  | some (Variant.strings uris) =>
    if uris.length ≠ 1 then
      ⟨[], Res.ok (some {}, some (errorsNew (str "len(uris) != 1")))⟩
    else
      match env.urlParse (uris.headD []) with
      | Except.ok u => ⟨[Event.urlParse (uris.headD [])], Res.ok (some u, none)⟩
      | Except.error err => ⟨[Event.urlParse (uris.headD [])], Res.ok (none, some err)⟩
  | some _ => ⟨[], Res.panic PanicValue.typeAssertion⟩

/-- Go `fileExists` (main.go 93-99).  When `os.Stat` fails with an error that is
not "does not exist", `info` is nil and `info.IsDir()` panics. -/
def fileExists (env : Env) (filename : GoString) : Run Bool :=
  match env.stat filename with
  | StatResult.error true _ => ⟨[Event.stat filename], Res.ok false⟩
  | StatResult.error false _ => ⟨[Event.stat filename], Res.panic PanicValue.nilDereference⟩
  | StatResult.ok info => ⟨[Event.stat filename], Res.ok (!info.IsDir)⟩

/-- The path separator `/` of `path/filepath` on Unix. -/
def pathSeparator : Byte := 47

/-- The loop of Go `filepath.Split`:
`i := len(path) - 1; for i >= 0 && path[i] != '/' { i-- }`.
The argument is `i + 1`, and so is the result. -/
def splitIndex (path : GoString) : Nat → Nat
  | 0 => 0
  | i + 1 => if path[i]? = some pathSeparator then i + 1 else splitIndex path i

/-- Go `filepath.Split` on Unix (no volume name): `path[:i+1], path[i+1:]`. -/
def filepathSplit (path : GoString) : GoString × GoString :=
  (path.take (splitIndex path path.length), path.drop (splitIndex path path.length))

/-- The usage line printed by `parseArgs` (main.go 103). -/
def usageLine : GoString :=
  str "Syntax: xdg-desktop-portal-copy-file source [target-directory] [target-name]"

/-- Go `parseArgs` (main.go 101-124): returns `(src, folder, name)`. -/
def parseArgs (env : Env) : Run (GoString × GoString × GoString) :=
  if env.args.length < 2 then
    ⟨[Event.println usageLine], Res.exit 1⟩
  else
    (fileExists env (env.args.getD 1 [])).bind fun found =>
      if !found then
        ⟨[], Res.panic (PanicValue.text (str "Sourcefile does not exist"))⟩
      else
        ⟨[], Res.ok (env.args.getD 1 [],
          if env.args.length ≥ 3 then env.args.getD 2 [] else str "~",
          if env.args.length ≥ 4 then env.args.getD 3 []
          else (filepathSplit (env.args.getD 1 [])).2)⟩

/-- Go `dbus.SessionBus()` as called by `main` (main.go 129). -/
def sessionBus (env : Env) : Run (Option GoError) :=
  ⟨[Event.sessionBus], Res.ok env.sessionBus⟩

/-- The statement `if err != nil { panic(err) }` of `main`. -/
def panicOnError (err : Option GoError) : Run Unit :=
  match err with
  | some e => ⟨[], Res.panic (PanicValue.error e)⟩
  | none => ⟨[], Res.ok ()⟩

/-- The statement `if response != 0 { os.Exit(0) }` of `main` (main.go 149-151). -/
def exitOnCancel (response : Nat) : Run Unit :=
  if response ≠ 0 then ⟨[], Res.exit 0⟩ else ⟨[], Res.ok ()⟩

/-- The expression `url.Path` of `main` (main.go 160): a field read through a
pointer. -/
def urlPath (url : Option URL) : Run GoString :=
  match url with
  | none => ⟨[], Res.panic PanicValue.nilDereference⟩
  | some u => ⟨[], Res.ok u.Path⟩

/-- Go `main` (main.go 126-163). -/
def main (env : Env) : Run Unit :=
  (parseArgs env).bind fun args =>
  (sessionBus env).bind fun connErr =>
  (panicOnError connErr).bind fun _ =>
  desktopPortal.bind fun _ =>
  (saveFile env args.2.1 args.2.2).bind fun callErr =>
  (panicOnError callErr).bind fun _ =>
  (awaitResponse env).bind fun resp =>
  (panicOnError resp.2.2).bind fun _ =>
  (exitOnCancel resp.1).bind fun _ =>
  (parseFileChooserResults env resp.2.1).bind fun parsed =>
  (panicOnError parsed.2).bind fun _ =>
  (urlPath parsed.1).bind fun dest =>
  (copyFile env args.1 dest).bind fun copyErr =>
  panicOnError copyErr

/-- The exit status of the process for a run of `main`: 0 when `main` returns,
2 when it panics (the Go runtime), the argument of `os.Exit` otherwise; none
while it blocks. -/
def exitStatus (r : Res Unit) : Option Nat :=
  match r with
  | Res.ok _ => some 0
  | Res.panic _ => some 2
  | Res.exit c => some c
  | Res.block => none

/-- Events of the bus: connecting, binding the portal object, the remote call,
the signal subscription and the receive. -/
def Event.isBus (e : Event) : Bool :=
  match e with
  | Event.sessionBus => true
  | Event.object _ _ => true
  | Event.call _ _ _ => true
  | Event.signalSubscribe => true
  | Event.receive => true
  | _ => false

/-- Events produced by `copyFile`. -/
def Event.isCopy (e : Event) : Bool :=
  match e with
  | Event.osOpen _ => true
  | Event.osCreate _ => true
  | Event.ioCopy _ _ => true
  | _ => false

/-- The events of `main` between `parseArgs` and `awaitResponse` when nothing
fails: connecting, binding the portal object, the remote call. -/
def requestTrace (folder : GoString) (name : GoString) : List Event :=
  [Event.sessionBus, Event.object portalBusName portalObjectPath,
   Event.call saveFileMethod 0 (saveFileArgs folder name)]

/-! ## A concrete run: the scenario `/tmp/a.txt` -/

/-- The world of the scenario: `/tmp/a.txt` is a regular file, the bus works,
the portal answers with response 0 and one URI, which `url.Parse` reads as a
`file` URL with path `/home/u/a.txt`. -/
def scenarioEnv : Env where
  args := [str "xdg-desktop-portal-copy-file", str "/tmp/a.txt"]
  stat := fun p =>
    if p = str "/tmp/a.txt" then StatResult.ok ⟨FileKind.regular⟩
    else StatResult.error true (errorsNew (str "no such file or directory"))
  sessionBus := none
  callErr := fun _ _ _ => none
  signals :=
    [some ⟨responseSignalName,
      [Value.uint32 0, Value.dict [(urisKey, Variant.strings [str "file:///home/u/a.txt"])]]⟩]
  store := fun body =>
    match body with
    | [Value.uint32 response, Value.dict results] => Except.ok (response, results)
    | _ => Except.error (errorsNew (str "dbus.Store: type mismatch"))
  urlParse := fun u =>
    if u = str "file:///home/u/a.txt" then
      Except.ok { Scheme := str "file", Path := str "/home/u/a.txt" }
    else Except.error (errorsNew (str "parse error"))
  osOpen := fun _ => none
  osCreate := fun _ => none
  ioCopy := fun _ _ => none

/-- The scenario with a response that carries no `uris` entry. -/
def noUrisEnv : Env :=
  { scenarioEnv with
    signals := [some ⟨responseSignalName, [Value.uint32 0, Value.dict []]⟩] }

/-- The scenario with a cancelled dialog whose results still hold a valid URI. -/
def cancelEnv : Env :=
  { scenarioEnv with
    signals :=
      [some ⟨responseSignalName,
        [Value.uint32 1,
         Value.dict [(urisKey, Variant.strings [str "file:///home/u/a.txt"])]]⟩] }

/-- The scenario with an unrelated signal arriving first, followed by the
expected response. -/
def straySignalEnv : Env :=
  { scenarioEnv with
    signals :=
      [some ⟨str "org.freedesktop.DBus.NameAcquired", [Value.string (str ":1.42")]⟩,
       some ⟨responseSignalName,
        [Value.uint32 0,
         Value.dict [(urisKey, Variant.strings [str "file:///home/u/a.txt"])]]⟩] }

/-- The scenario with a FIFO as source. -/
def fifoEnv : Env :=
  { scenarioEnv with
    args := [str "xdg-desktop-portal-copy-file", str "/tmp/pipe"]
    stat := fun p =>
      if p = str "/tmp/pipe" then StatResult.ok ⟨FileKind.fifo⟩
      else StatResult.error true (errorsNew (str "no such file or directory")) }

/-- The scenario with a source that `os.Stat` cannot inspect. -/
def deniedEnv : Env :=
  { scenarioEnv with
    args := [str "xdg-desktop-portal-copy-file", str "/root/a.txt"]
    stat := fun _ => StatResult.error false (errorsNew (str "permission denied")) }

/-- The scenario with a directory as source. -/
def directoryEnv : Env :=
  { scenarioEnv with
    args := [str "xdg-desktop-portal-copy-file", str "/tmp"]
    stat := fun _ => StatResult.ok ⟨FileKind.directory⟩ }

/-- The scenario with a source that does not exist. -/
def missingEnv : Env :=
  { scenarioEnv with
    args := [str "xdg-desktop-portal-copy-file", str "/tmp/none.txt"]
    stat := fun _ => StatResult.error true (errorsNew (str "no such file or directory")) }

/-! ## Lemmas on the model -/

/-- The cut point of `filepath.Split` never exceeds its starting point. -/
theorem splitIndex_le (path : GoString) (n : Nat) : splitIndex path n ≤ n := by
  induction n with
  | zero => simp [splitIndex]
  | succ i ih =>
    unfold splitIndex
    split
    · exact Nat.le_refl _
    · exact Nat.le_succ_of_le ih

/-- No separator lies between the cut point and the starting point. -/
theorem splitIndex_no_sep (path : GoString) (n j : Nat)
    (hlo : splitIndex path n ≤ j) (hhi : j < n) : path[j]? ≠ some pathSeparator := by
  induction n with
  | zero => omega
  | succ i ih =>
    unfold splitIndex at hlo
    split at hlo
    · omega
    · rename_i hne
      by_cases hj : j = i
      · subst hj; exact hne
      · exact ih hlo (by omega)

/-- The cut point is 0 or directly follows a separator. -/
theorem splitIndex_after_sep (path : GoString) (n : Nat) :
    splitIndex path n = 0 ∨
      path[splitIndex path n - 1]? = some pathSeparator := by
  induction n with
  | zero => left; simp [splitIndex]
  | succ i ih =>
    unfold splitIndex
    split
    · rename_i h; right; simpa using h
    · exact ih

/-- What `filepath.Split` returns: the two parts make up the path, the file part
holds no separator, and the directory part is empty or ends in a separator. -/
theorem filepathSplit_spec (path : GoString) :
    (filepathSplit path).1 ++ (filepathSplit path).2 = path ∧
    pathSeparator ∉ (filepathSplit path).2 ∧
    ((filepathSplit path).1 = [] ∨ (filepathSplit path).1.getLast? = some pathSeparator) := by
  refine ⟨List.take_append_drop _ _, ?_, ?_⟩
  · intro hmem
    obtain ⟨j, hj⟩ := List.mem_iff_getElem?.mp hmem
    simp only [filepathSplit, List.getElem?_drop] at hj
    have hlt : splitIndex path path.length + j < path.length := by
      by_contra hge
      rw [List.getElem?_eq_none (by omega)] at hj
      cases hj
    exact splitIndex_no_sep path path.length _ (Nat.le_add_right _ _) hlt hj
  · have hle := splitIndex_le path path.length
    by_cases hz : splitIndex path path.length = 0
    · left; simp [filepathSplit, hz]
    · right
      rcases splitIndex_after_sep path path.length with h0 | hs
      · exact absurd h0 hz
      · simp only [filepathSplit]
        rw [List.getLast?_eq_getElem?]
        simp only [List.length_take, Nat.min_eq_left hle]
        rw [List.getElem?_take]
        rw [if_pos (by omega)]
        exact hs

/-- The trace of `fileExists` is the one `os.Stat` call. -/
theorem fileExists_trace (env : Env) (filename : GoString) :
    (fileExists env filename).trace = [Event.stat filename] := by
  unfold fileExists
  split <;> rfl

/-- Every event of `parseArgs` is a print or an `os.Stat`: none touches the bus
and none belongs to the copy. -/
theorem parseArgs_trace (env : Env) :
    ∀ ev ∈ (parseArgs env).trace, ev.isBus = false ∧ ev.isCopy = false := by
  intro ev hev
  unfold parseArgs at hev
  split at hev
  · simp at hev; subst hev; exact ⟨rfl, rfl⟩
  · have ht := fileExists_trace env (env.args.getD 1 [])
    unfold Run.bind at hev
    split at hev
    · rename_i a _
      rw [ht] at hev
      by_cases ha : a = true
      · simp [ha] at hev; subst hev; exact ⟨rfl, rfl⟩
      · simp [ha] at hev; subst hev; exact ⟨rfl, rfl⟩
    all_goals (rw [ht] at hev; simp at hev; subst hev; exact ⟨rfl, rfl⟩)

/-- Every event of `awaitResponse` is the subscription, the receive or the
decoding of the body. -/
theorem awaitResponse_trace (env : Env) :
    ∀ ev ∈ (awaitResponse env).trace,
      ev = Event.signalSubscribe ∨ ev = Event.receive ∨ ∃ body, ev = Event.store body := by
  intro ev hev
  unfold awaitResponse at hev
  split at hev
  · simp at hev; rcases hev with h | h <;> simp [h]
  · simp at hev; rcases hev with h | h <;> simp [h]
  · split at hev
    · simp at hev; rcases hev with h | h <;> simp [h]
    · split at hev
      · simp at hev; rcases hev with h | h | h <;> simp [h]
      · simp at hev; rcases hev with h | h | h <;> simp [h]

/-- The run of `main` once the arguments were accepted, the bus was reached, the
remote call was accepted and `awaitResponse` returned without error. -/
theorem main_of_response (env : Env) (src folder name : GoString) (t0 t1 : List Event)
    (response : Nat) (results : VariantMap)
    (hargs : parseArgs env = ⟨t0, Res.ok (src, folder, name)⟩)
    (hbus : env.sessionBus = none)
    (hcall : env.callErr saveFileMethod 0 (saveFileArgs folder name) = none)
    (hresp : awaitResponse env = ⟨t1, Res.ok (response, results, none)⟩) :
    main env = Run.bind ⟨t0 ++ requestTrace folder name ++ t1, Res.ok ()⟩ (fun _ =>
      (exitOnCancel response).bind fun _ =>
      (parseFileChooserResults env results).bind fun parsed =>
      (panicOnError parsed.2).bind fun _ =>
      (urlPath parsed.1).bind fun dest =>
      (copyFile env src dest).bind fun copyErr =>
      panicOnError copyErr) := by
  unfold main
  rw [hargs, hresp]
  simp [Run.bind, sessionBus, hbus, panicOnError, desktopPortal, saveFile, hcall, requestTrace]

/-- With a source argument on the command line, `parseArgs` is the existence
check followed by the defaults. -/
theorem parseArgs_of_source (env : Env) (prog src : GoString) (rest : List GoString)
    (hargs : env.args = prog :: src :: rest) :
    parseArgs env = (fileExists env src).bind fun found =>
      if !found then
        ⟨[], Res.panic (PanicValue.text (str "Sourcefile does not exist"))⟩
      else
        ⟨[], Res.ok (src,
          if env.args.length ≥ 3 then env.args.getD 2 [] else str "~",
          if env.args.length ≥ 4 then env.args.getD 3 []
          else (filepathSplit src).2)⟩ := by
  have hlen : ¬ env.args.length < 2 := by rw [hargs]; simp
  have hsrc : env.args.getD 1 [] = src := by rw [hargs]; rfl
  unfold parseArgs
  rw [if_neg hlen, hsrc]

/-- A source that does not exist makes `parseArgs` panic with its diagnostic. -/
theorem parseArgs_of_missing (env : Env) (prog src : GoString) (rest : List GoString)
    (err : GoError) (hargs : env.args = prog :: src :: rest)
    (hstat : env.stat src = StatResult.error true err) :
    parseArgs env =
      ⟨[Event.stat src], Res.panic (PanicValue.text (str "Sourcefile does not exist"))⟩ := by
  rw [parseArgs_of_source env prog src rest hargs]
  unfold fileExists
  rw [hstat]
  simp [Run.bind]

/-- Before `main` looks at the response, every event is a print, an `os.Stat`, a
bus event or the decoding of the signal body: no `url.Parse` and no event of
`copyFile`. -/
theorem response_prefix_events (env : Env) (src folder name : GoString)
    (t0 t1 : List Event) (resp : Nat × VariantMap × Option GoError)
    (hargs : parseArgs env = ⟨t0, Res.ok (src, folder, name)⟩)
    (hresp : awaitResponse env = ⟨t1, Res.ok resp⟩) :
    ∀ ev ∈ t0 ++ requestTrace folder name ++ t1,
      ev.isCopy = false ∧ ∀ u, ev ≠ Event.urlParse u := by
  intro ev hev
  simp only [List.mem_append] at hev
  rcases hev with (h | h) | h
  · have h0 := parseArgs_trace env ev (by rw [hargs]; exact h)
    refine ⟨h0.2, ?_⟩
    intro u hu
    have hs : t0 = (parseArgs env).trace := by rw [hargs]
    unfold parseArgs at hs
    split at hs
    · subst hs; subst hu; simp at h
    · unfold Run.bind at hs
      rw [fileExists_trace] at hs
      split at hs
      · rename_i a _
        by_cases ha : a = true
        · simp [ha] at hs; subst hs; subst hu; simp at h
        · simp [ha] at hs; subst hs; subst hu; simp at h
      all_goals (subst hs; subst hu; simp at h)
  · simp [requestTrace] at h
    rcases h with h | h | h <;> subst h <;> exact ⟨rfl, by simp⟩
  · rcases awaitResponse_trace env ev (by rw [hresp]; exact h) with h | h | ⟨b, h⟩ <;>
      subst h <;> exact ⟨rfl, by simp⟩

/-! ## The request (`saveFile`) -/

/-- C1: for every folder and name, `saveFile` issues exactly one remote call, to
`org.freedesktop.portal.FileChooser.SaveFile`, with the positional arguments
`""`, `"Choose Location"` and an options map whose keys are exactly
`current_name` and `current_folder`; `current_name` holds the name unchanged and
`current_folder` holds the bytes of the folder followed by one zero byte, so it
is not empty, has length `len(folder) + 1` and ends in `0x00`. -/
theorem saveFile_issues_one_call (env : Env) (folder name : GoString) :
    ∃ (options : VariantMap) (dest : List Byte),
      (saveFile env folder name).trace =
        [Event.call (str "org.freedesktop.portal.FileChooser.SaveFile") 0
          [Value.string (str ""), Value.string (str "Choose Location"), Value.dict options]] ∧
      options.map Prod.fst = [str "current_name", str "current_folder"] ∧
      str "current_name" ≠ str "current_folder" ∧
      options.lookup (str "current_name") = some (Variant.string name) ∧
      options.lookup (str "current_folder") = some (Variant.bytes dest) ∧
      dest = folder ++ [0] ∧ dest ≠ [] ∧ dest.length = folder.length + 1 ∧
      dest.getLast? = some 0 := by
  refine ⟨saveFileOptions folder name, saveFileDest folder, rfl, rfl, by decide, ?_, ?_,
    rfl, ?_, ?_, ?_⟩
  · have hk : (str "current_name" == currentNameKey) = true := by decide
    simp [saveFileOptions, List.lookup, hk, makeVariantString]
  · have hk1 : (str "current_folder" == currentNameKey) = false := by decide
    have hk2 : (str "current_folder" == currentFolderKey) = true := by decide
    simp [saveFileOptions, List.lookup, hk1, hk2, makeVariantBytes]
  · simp [saveFileDest, nulString]
  · simp [saveFileDest, nulString]
  · simp [saveFileDest, nulString]

/-- C2, as stated, fails: for the folder `"~\000"`, which already ends in a NUL,
the byte sequence built by `saveFile` is `~ 00 00`: its last byte is zero and
so is the byte before it. -/
theorem saveFileDest_two_trailing_nuls :
    saveFileDest (str "~" ++ [0]) = [126, 0, 0] ∧
    (saveFileDest (str "~" ++ [0])).getLast? = some 0 ∧
    (saveFileDest (str "~" ++ [0])).dropLast.getLast? = some 0 ∧
    (saveFile scenarioEnv (str "~" ++ [0]) (str "a.txt")).trace =
      [Event.call saveFileMethod 0
        [Value.string (str ""), Value.string (str "Choose Location"),
         Value.dict [(currentNameKey, Variant.string (str "a.txt")),
                     (currentFolderKey, Variant.bytes [126, 0, 0])]]] := by
  decide

/-- C2, amended: for every folder, the byte sequence built by `saveFile` is the
folder followed by exactly one appended zero byte: its last byte is `0x00`,
what precedes that byte is the folder unchanged, and the byte before it, when
there is one, is the last byte of the folder, so it is zero exactly when the
folder itself ends in a NUL. -/
theorem saveFileDest_appends_one_nul (env : Env) (folder name : GoString) :
    (saveFile env folder name).trace =
      [Event.call saveFileMethod 0
        [Value.string (str ""), Value.string (str "Choose Location"),
         Value.dict [(currentNameKey, Variant.string name),
                     (currentFolderKey, Variant.bytes (saveFileDest folder))]]] ∧
    (saveFileDest folder).getLast? = some 0 ∧
    (saveFileDest folder).dropLast = folder ∧
    (saveFileDest folder).dropLast.getLast? = folder.getLast? ∧
    ((saveFileDest folder).dropLast.getLast? = some 0 ↔ folder.getLast? = some 0) := by
  have hd : (saveFileDest folder).dropLast = folder := by
    simp [saveFileDest, nulString]
  exact ⟨rfl, by simp [saveFileDest, nulString], hd, by rw [hd], by rw [hd]⟩

/-! ## The result parser (`parseFileChooserResults`) -/

/-- C3: when the `uris` entry of the results is a sequence holding exactly one
string `u` that `url.Parse` accepts, `parseFileChooserResults` returns the
parsed URL without error, whatever other keys the results hold; and a run of
`main` that received these results with response 0 goes on to `copyFile` with
the `Path` of that URL as destination, so the only file it creates is that
path. -/
theorem parseFileChooserResults_single_uri (env : Env) (results : VariantMap)
    (u : GoString) (url : URL)
    (huris : results.lookup urisKey = some (Variant.strings [u]))
    (hparse : env.urlParse u = Except.ok url) :
    parseFileChooserResults env results = ⟨[Event.urlParse u], Res.ok (some url, none)⟩ ∧
    ∀ (src folder name : GoString) (t0 t1 : List Event),
      parseArgs env = ⟨t0, Res.ok (src, folder, name)⟩ →
      env.sessionBus = none →
      env.callErr saveFileMethod 0 (saveFileArgs folder name) = none →
      awaitResponse env = ⟨t1, Res.ok (0, results, none)⟩ →
      main env =
        ⟨t0 ++ requestTrace folder name ++ t1 ++ [Event.urlParse u] ++
            (copyFile env src url.Path).trace,
          ((copyFile env src url.Path).bind panicOnError).res⟩ ∧
      ∀ p, Event.osCreate p ∈ (main env).trace → p = url.Path := by
  have hp : parseFileChooserResults env results =
      ⟨[Event.urlParse u], Res.ok (some url, none)⟩ := by
    simp [parseFileChooserResults, huris, hparse]
  refine ⟨hp, ?_⟩
  intro src folder name t0 t1 hargs hbus hcall hresp
  have hcopy : ∃ tc ec, copyFile env src url.Path = ⟨tc, Res.ok ec⟩ ∧
      ∀ p, Event.osCreate p ∈ tc → p = url.Path := by
    unfold copyFile
    split
    · exact ⟨_, _, rfl, by simp⟩
    · split
      · exact ⟨_, _, rfl, by simp⟩
      · split
        · exact ⟨_, _, rfl, by simp⟩
        · exact ⟨_, _, rfl, by simp⟩
  obtain ⟨tc, ec, hc, hcreate⟩ := hcopy
  have hmain : main env =
      ⟨t0 ++ requestTrace folder name ++ t1 ++ [Event.urlParse u] ++
          (copyFile env src url.Path).trace,
        ((copyFile env src url.Path).bind panicOnError).res⟩ := by
    rw [main_of_response env src folder name t0 t1 0 results hargs hbus hcall hresp, hp]
    cases ec <;> simp [Run.bind, exitOnCancel, panicOnError, urlPath, hc]
  refine ⟨hmain, ?_⟩
  intro p hmem
  rw [hmain, hc] at hmem
  simp only [List.mem_append, List.mem_singleton] at hmem
  rcases hmem with (((h | h) | h) | h) | h
  · have h0 := (parseArgs_trace env (Event.osCreate p) (by rw [hargs]; exact h)).2
    simp [Event.isCopy] at h0
  · simp [requestTrace] at h
  · have h1 := awaitResponse_trace env (Event.osCreate p) (by rw [hresp]; exact h)
    simp at h1
  · cases h
  · exact hcreate p h

/-- C3 at the scenario: the results `{"uris": ["file:///home/u/a.txt"]}` give the
destination `/home/u/a.txt`. -/
theorem parseFileChooserResults_single_uri_scenario :
    List.lookup urisKey [(urisKey, Variant.strings [str "file:///home/u/a.txt"])] =
      some (Variant.strings [str "file:///home/u/a.txt"]) ∧
    scenarioEnv.urlParse (str "file:///home/u/a.txt") =
      Except.ok { Scheme := str "file", Path := str "/home/u/a.txt" } ∧
    parseFileChooserResults scenarioEnv
        [(urisKey, Variant.strings [str "file:///home/u/a.txt"])] =
      ⟨[Event.urlParse (str "file:///home/u/a.txt")],
        Res.ok (some { Scheme := str "file", Path := str "/home/u/a.txt" }, none)⟩ ∧
    ∀ p, Event.osCreate p ∈ (main scenarioEnv).trace → p = str "/home/u/a.txt" :=
  ⟨by decide, rfl,
    (parseFileChooserResults_single_uri scenarioEnv
      [(urisKey, Variant.strings [str "file:///home/u/a.txt"])]
      (str "file:///home/u/a.txt") { Scheme := str "file", Path := str "/home/u/a.txt" }
      (by decide) rfl).1,
    ((parseFileChooserResults_single_uri scenarioEnv
      [(urisKey, Variant.strings [str "file:///home/u/a.txt"])]
      (str "file:///home/u/a.txt") { Scheme := str "file", Path := str "/home/u/a.txt" }
      (by decide) rfl).2
      (str "/tmp/a.txt") (str "~") (str "a.txt") [Event.stat (str "/tmp/a.txt")]
      [Event.signalSubscribe, Event.receive,
        Event.store [Value.uint32 0,
          Value.dict [(urisKey, Variant.strings [str "file:///home/u/a.txt"])]]]
      (by decide) (by decide) (by decide) (by decide)).2⟩

/-- C4 fails on the code: when the `uris` entry holds a value that is not a
sequence of strings (here a single string), `parseFileChooserResults` does not
return an error: the unchecked type assertion panics.  With the key absent, or
with a sequence of two strings, the same function does return an error. -/
theorem parseFileChooserResults_panics_on_other_type :
    parseFileChooserResults scenarioEnv
        [(urisKey, Variant.string (str "file:///home/u/a.txt"))] =
      ⟨[], Res.panic PanicValue.typeAssertion⟩ ∧
    parseFileChooserResults scenarioEnv [] =
      ⟨[], Res.ok (some {}, some (errorsNew (str "No uris in results")))⟩ ∧
    parseFileChooserResults scenarioEnv
        [(urisKey, Variant.strings [str "file:///a", str "file:///b"])] =
      ⟨[], Res.ok (some {}, some (errorsNew (str "len(uris) != 1")))⟩ := by
  decide

/-! ## The top-level flow (`main`) -/

/-- C5: when the awaited response has code 0 and the `uris` entry of its results
is absent, or is a sequence of strings that is empty or longer than one, `main`
ends by panicking with the error of `parseFileChooserResults` (exit status 2),
and no event of `copyFile` occurs. -/
theorem main_fails_without_single_uri (env : Env) (src folder name : GoString)
    (t0 t1 : List Event) (results : VariantMap)
    (hargs : parseArgs env = ⟨t0, Res.ok (src, folder, name)⟩)
    (hbus : env.sessionBus = none)
    (hcall : env.callErr saveFileMethod 0 (saveFileArgs folder name) = none)
    (hresp : awaitResponse env = ⟨t1, Res.ok (0, results, none)⟩)
    (hbad : results.lookup urisKey = none ∨
      ∃ uris, results.lookup urisKey = some (Variant.strings uris) ∧
        (uris.length = 0 ∨ uris.length > 1)) :
    (∃ err, parseFileChooserResults env results = ⟨[], Res.ok (some {}, some err)⟩ ∧
      main env = ⟨t0 ++ requestTrace folder name ++ t1, Res.panic (PanicValue.error err)⟩) ∧
    exitStatus (main env).res = some 2 ∧
    ∀ ev ∈ (main env).trace, ev.isCopy = false := by
  have hp : ∃ err, parseFileChooserResults env results =
      ⟨[], Res.ok (some {}, some err)⟩ := by
    rcases hbad with hnone | ⟨uris, hsome, hlen⟩
    · exact ⟨errorsNew (str "No uris in results"), by simp [parseFileChooserResults, hnone]⟩
    · have hne : uris.length ≠ 1 := by omega
      exact ⟨errorsNew (str "len(uris) != 1"),
        by simp [parseFileChooserResults, hsome, hne]⟩
  obtain ⟨err, hperr⟩ := hp
  have hmain : main env =
      ⟨t0 ++ requestTrace folder name ++ t1, Res.panic (PanicValue.error err)⟩ := by
    rw [main_of_response env src folder name t0 t1 0 results hargs hbus hcall hresp, hperr]
    simp [Run.bind, exitOnCancel, panicOnError]
  refine ⟨⟨err, hperr, hmain⟩, by rw [hmain]; rfl, ?_⟩
  intro ev hev
  rw [hmain] at hev
  exact (response_prefix_events env src folder name t0 t1 _ hargs hresp ev hev).1

/-- C5 at a concrete run: response 0 with empty results. -/
theorem main_fails_without_single_uri_scenario :
    parseArgs noUrisEnv =
      ⟨[Event.stat (str "/tmp/a.txt")], Res.ok (str "/tmp/a.txt", str "~", str "a.txt")⟩ ∧
    noUrisEnv.sessionBus = none ∧
    noUrisEnv.callErr saveFileMethod 0 (saveFileArgs (str "~") (str "a.txt")) = none ∧
    awaitResponse noUrisEnv =
      ⟨[Event.signalSubscribe, Event.receive, Event.store [Value.uint32 0, Value.dict []]],
        Res.ok (0, [], none)⟩ ∧
    List.lookup urisKey ([] : VariantMap) = none ∧
    exitStatus (main noUrisEnv).res = some 2 ∧
    ∀ ev ∈ (main noUrisEnv).trace, ev.isCopy = false :=
  ⟨by decide, by decide, by decide, by decide, rfl,
    (main_fails_without_single_uri noUrisEnv (str "/tmp/a.txt") (str "~") (str "a.txt")
      [Event.stat (str "/tmp/a.txt")]
      [Event.signalSubscribe, Event.receive, Event.store [Value.uint32 0, Value.dict []]]
      [] (by decide) (by decide) (by decide) (by decide) (Or.inl (by decide))).2⟩

/-- C6: when the awaited response has a nonzero code, whatever its results are,
`main` ends through `os.Exit(0)` right after the response was received: the
run does not depend on the results, `url.Parse` is never called and no event
of `copyFile` occurs, so no file is opened or created. -/
theorem main_exits_zero_on_cancel (env : Env) (src folder name : GoString)
    (t0 t1 : List Event) (response : Nat) (results : VariantMap)
    (hargs : parseArgs env = ⟨t0, Res.ok (src, folder, name)⟩)
    (hbus : env.sessionBus = none)
    (hcall : env.callErr saveFileMethod 0 (saveFileArgs folder name) = none)
    (hresp : awaitResponse env = ⟨t1, Res.ok (response, results, none)⟩)
    (hnz : response ≠ 0) :
    main env = ⟨t0 ++ requestTrace folder name ++ t1, Res.exit 0⟩ ∧
    exitStatus (main env).res = some 0 ∧
    ∀ ev ∈ (main env).trace, ev.isCopy = false ∧ ∀ u, ev ≠ Event.urlParse u := by
  have hmain : main env = ⟨t0 ++ requestTrace folder name ++ t1, Res.exit 0⟩ := by
    rw [main_of_response env src folder name t0 t1 response results hargs hbus hcall hresp]
    simp [Run.bind, exitOnCancel, hnz]
  refine ⟨hmain, by rw [hmain]; rfl, ?_⟩
  intro ev hev
  rw [hmain] at hev
  exact response_prefix_events env src folder name t0 t1 _ hargs hresp ev hev

/-- C6 at a concrete run: response 1 with a valid single URI in the results. -/
theorem main_exits_zero_on_cancel_scenario :
    parseArgs cancelEnv =
      ⟨[Event.stat (str "/tmp/a.txt")], Res.ok (str "/tmp/a.txt", str "~", str "a.txt")⟩ ∧
    cancelEnv.sessionBus = none ∧
    cancelEnv.callErr saveFileMethod 0 (saveFileArgs (str "~") (str "a.txt")) = none ∧
    awaitResponse cancelEnv =
      ⟨[Event.signalSubscribe, Event.receive,
          Event.store [Value.uint32 1,
            Value.dict [(urisKey, Variant.strings [str "file:///home/u/a.txt"])]]],
        Res.ok (1, [(urisKey, Variant.strings [str "file:///home/u/a.txt"])], none)⟩ ∧
    exitStatus (main cancelEnv).res = some 0 ∧
    ∀ ev ∈ (main cancelEnv).trace, ev.isCopy = false ∧ ∀ u, ev ≠ Event.urlParse u :=
  ⟨by decide, by decide, by decide, by decide,
    (main_exits_zero_on_cancel cancelEnv (str "/tmp/a.txt") (str "~") (str "a.txt")
      [Event.stat (str "/tmp/a.txt")]
      [Event.signalSubscribe, Event.receive,
        Event.store [Value.uint32 1,
          Value.dict [(urisKey, Variant.strings [str "file:///home/u/a.txt"])]]]
      1 [(urisKey, Variant.strings [str "file:///home/u/a.txt"])]
      (by decide) (by decide) (by decide) (by decide) (by decide)).2⟩

/-! ## The response correlator (`awaitResponse`) -/

/-- C7: when the first signal received has a name other than
`org.freedesktop.portal.Request.Response`, `awaitResponse` returns response 0,
an empty results map and the error `Unexpected response`, whatever the body
of the signal is and whatever follows it on the channel: the body is never
handed to `dbus.Store` and exactly one receive takes place. -/
theorem awaitResponse_unexpected_signal (env : Env) (signal : Signal)
    (rest : List (Option Signal))
    (hsig : env.signals = some signal :: rest)
    (hname : signal.Name ≠ str "org.freedesktop.portal.Request.Response") :
    awaitResponse env =
      ⟨[Event.signalSubscribe, Event.receive],
        Res.ok (0, [], some (errorsNew (str "Unexpected response")))⟩ ∧
    (awaitResponse env).trace.count Event.receive = 1 ∧
    ∀ body, Event.store body ∉ (awaitResponse env).trace := by
  have h : awaitResponse env =
      ⟨[Event.signalSubscribe, Event.receive],
        Res.ok (0, [], some (errorsNew (str "Unexpected response")))⟩ := by
    unfold awaitResponse
    rw [hsig]
    have hn : signal.Name ≠ responseSignalName := hname
    simp [hn]
  refine ⟨h, by rw [h]; decide, ?_⟩
  intro body
  rw [h]
  simp

/-- C7 at a concrete run: `NameAcquired` arrives before the response. -/
theorem awaitResponse_unexpected_signal_scenario :
    straySignalEnv.signals =
      some ⟨str "org.freedesktop.DBus.NameAcquired", [Value.string (str ":1.42")]⟩ ::
        [some ⟨responseSignalName,
          [Value.uint32 0,
           Value.dict [(urisKey, Variant.strings [str "file:///home/u/a.txt"])]]⟩] ∧
    str "org.freedesktop.DBus.NameAcquired" ≠ str "org.freedesktop.portal.Request.Response" ∧
    awaitResponse straySignalEnv =
      ⟨[Event.signalSubscribe, Event.receive],
        Res.ok (0, [], some (errorsNew (str "Unexpected response")))⟩ :=
  ⟨rfl, by decide,
    (awaitResponse_unexpected_signal straySignalEnv
      ⟨str "org.freedesktop.DBus.NameAcquired", [Value.string (str ":1.42")]⟩
      [some ⟨responseSignalName,
        [Value.uint32 0,
         Value.dict [(urisKey, Variant.strings [str "file:///home/u/a.txt"])]]⟩]
      rfl (by decide)).1⟩

/-! ## The command line (`parseArgs`, `fileExists`) -/

/-- C8, as stated, fails: a source path that names a FIFO is accepted
(`parseArgs` returns normally although the path is not a regular file), and a
source path that cannot be inspected makes the process abort with a nil
dereference, not with the diagnostic `Sourcefile does not exist`. -/
theorem parseArgs_accepts_fifo :
    fifoEnv.stat (str "/tmp/pipe") = StatResult.ok ⟨FileKind.fifo⟩ ∧
    parseArgs fifoEnv =
      ⟨[Event.stat (str "/tmp/pipe")], Res.ok (str "/tmp/pipe", str "~", str "pipe")⟩ ∧
    deniedEnv.stat (str "/root/a.txt") =
      StatResult.error false (errorsNew (str "permission denied")) ∧
    parseArgs deniedEnv =
      ⟨[Event.stat (str "/root/a.txt")], Res.panic PanicValue.nilDereference⟩ := by
  decide

/-- C8, amended: for every source-file argument, `parseArgs` returns normally
exactly when `os.Stat` succeeds on the path and the path is not a directory
(regular files, devices, FIFOs and sockets are all accepted); for every path
that does not exist or names a directory the process aborts with the
diagnostic `Sourcefile does not exist`. -/
theorem parseArgs_source_check (env : Env) (prog src : GoString) (rest : List GoString)
    (hargs : env.args = prog :: src :: rest) :
    ((∃ t v, parseArgs env = ⟨t, Res.ok v⟩) ↔
      ∃ info, env.stat src = StatResult.ok info ∧ info.kind ≠ FileKind.directory) ∧
    ((∃ err, env.stat src = StatResult.error true err) ∨
      (∃ info, env.stat src = StatResult.ok info ∧ info.kind = FileKind.directory) →
      parseArgs env =
        ⟨[Event.stat src], Res.panic (PanicValue.text (str "Sourcefile does not exist"))⟩) := by
  have hpa := parseArgs_of_source env prog src rest hargs
  constructor
  · constructor
    · rintro ⟨t, v, h⟩
      rw [hpa] at h
      unfold fileExists at h
      split at h
      · simp [Run.bind] at h
      · simp [Run.bind] at h
      · rename_i info hinfo
        refine ⟨info, hinfo, ?_⟩
        intro hk
        simp [Run.bind, FileInfo.IsDir, hk] at h
    · rintro ⟨info, hinfo, hk⟩
      rw [hpa]
      unfold fileExists
      rw [hinfo]
      simp [Run.bind, FileInfo.IsDir, hk]
  · intro h
    rw [hpa]
    unfold fileExists
    rcases h with ⟨err, herr⟩ | ⟨info, hinfo, hk⟩
    · rw [herr]; simp [Run.bind]
    · rw [hinfo]; simp [Run.bind, FileInfo.IsDir, hk]

/-- C8 amended, at a concrete run: the source `/tmp` is a directory. -/
theorem parseArgs_source_check_scenario :
    directoryEnv.args = str "xdg-desktop-portal-copy-file" :: str "/tmp" :: [] ∧
    directoryEnv.stat (str "/tmp") = StatResult.ok ⟨FileKind.directory⟩ ∧
    parseArgs directoryEnv =
      ⟨[Event.stat (str "/tmp")],
        Res.panic (PanicValue.text (str "Sourcefile does not exist"))⟩ :=
  ⟨rfl, rfl,
    (parseArgs_source_check directoryEnv (str "xdg-desktop-portal-copy-file") (str "/tmp") []
      rfl).2 (Or.inr ⟨⟨FileKind.directory⟩, rfl, rfl⟩)⟩

/-- C9: for every argument list whose source exists and is not a directory,
`parseArgs` returns the source unchanged; the folder is `~` when no second
argument is given and the second argument otherwise; the name is the third
argument when there is one and otherwise the part of the source path after
its last `/` (the whole path when it holds no `/`). -/
theorem parseArgs_defaults (env : Env) (prog src : GoString) (rest : List GoString)
    (info : FileInfo)
    (hargs : env.args = prog :: src :: rest)
    (hstat : env.stat src = StatResult.ok info)
    (hkind : info.kind ≠ FileKind.directory) :
    ∃ folder name,
      parseArgs env = ⟨[Event.stat src], Res.ok (src, folder, name)⟩ ∧
      (rest = [] → folder = str "~") ∧
      (∀ f r, rest = f :: r → folder = f) ∧
      (∀ f n r, rest = f :: n :: r → name = n) ∧
      (rest.length < 2 →
        ∃ dir, src = dir ++ name ∧ pathSeparator ∉ name ∧
          (dir = [] ∨ dir.getLast? = some pathSeparator)) := by
  have hfe : fileExists env src = ⟨[Event.stat src], Res.ok true⟩ := by
    unfold fileExists
    rw [hstat]
    simp [FileInfo.IsDir, hkind]
  have hsplit := filepathSplit_spec src
  have hdir : rest.length < 2 →
      ∃ dir, src = dir ++ (filepathSplit src).2 ∧ pathSeparator ∉ (filepathSplit src).2 ∧
        (dir = [] ∨ dir.getLast? = some pathSeparator) :=
    fun _ => ⟨(filepathSplit src).1, hsplit.1.symm, hsplit.2.1, hsplit.2.2⟩
  match rest, hargs, hdir with
  | [], hargs, hdir =>
    refine ⟨str "~", (filepathSplit src).2, ?_, fun _ => rfl, ?_, ?_, hdir⟩
    · unfold parseArgs
      rw [hargs]
      simp [List.getD, hfe, Run.bind]
    · intro f r h; cases h
    · intro f n r h; cases h
  | [f], hargs, hdir =>
    refine ⟨f, (filepathSplit src).2, ?_, ?_, ?_, ?_, hdir⟩
    · unfold parseArgs
      rw [hargs]
      simp [List.getD, hfe, Run.bind]
    · intro h; cases h
    · intro f1 r h; cases h; rfl
    · intro f1 n r h; cases h
  | f :: n :: r, hargs, _ =>
    refine ⟨f, n, ?_, ?_, ?_, ?_, ?_⟩
    · unfold parseArgs
      rw [hargs]
      simp [List.getD, hfe, Run.bind]
    · intro h; cases h
    · intro f1 r1 h; cases h; rfl
    · intro f1 n1 r1 h; cases h; rfl
    · intro h; simp at h; omega

/-- C9 at the scenario: source `/tmp/a.txt` with no further arguments gives
folder `~` and name `a.txt`, hence `current_name = "a.txt"` and
`current_folder = "~\000"` in the request. -/
theorem parseArgs_defaults_scenario :
    scenarioEnv.args = str "xdg-desktop-portal-copy-file" :: str "/tmp/a.txt" :: [] ∧
    scenarioEnv.stat (str "/tmp/a.txt") = StatResult.ok ⟨FileKind.regular⟩ ∧
    (∃ folder name,
      parseArgs scenarioEnv =
        ⟨[Event.stat (str "/tmp/a.txt")], Res.ok (str "/tmp/a.txt", folder, name)⟩ ∧
      (([] : List GoString) = [] → folder = str "~") ∧
      (∀ f r, ([] : List GoString) = f :: r → folder = f) ∧
      (∀ f n r, ([] : List GoString) = f :: n :: r → name = n) ∧
      (([] : List GoString).length < 2 →
        ∃ dir, str "/tmp/a.txt" = dir ++ name ∧ pathSeparator ∉ name ∧
          (dir = [] ∨ dir.getLast? = some pathSeparator))) ∧
    parseArgs scenarioEnv =
      ⟨[Event.stat (str "/tmp/a.txt")], Res.ok (str "/tmp/a.txt", str "~", str "a.txt")⟩ ∧
    saveFileOptions (str "~") (str "a.txt") =
      [(str "current_name", Variant.string (str "a.txt")),
       (str "current_folder", Variant.bytes [126, 0])] :=
  ⟨rfl, rfl,
    parseArgs_defaults scenarioEnv (str "xdg-desktop-portal-copy-file") (str "/tmp/a.txt") []
      ⟨FileKind.regular⟩ rfl rfl (by decide),
    by decide, by decide⟩

/-- C10: when the source-file argument is missing from the command line, or
names a file that does not exist, `main` ends with a nonzero exit status
(`os.Exit(1)` after the usage line, or the panic `Sourcefile does not exist`)
and its trace holds no bus event (no connection, no remote call, no
subscription, no receive) and no event of `copyFile`. -/
theorem main_aborts_before_bus (env : Env)
    (h : env.args.length < 2 ∨
      ∃ prog src rest err, env.args = prog :: src :: rest ∧
        env.stat src = StatResult.error true err) :
    (main env = ⟨[Event.println usageLine], Res.exit 1⟩ ∨
      ∃ src, main env =
        ⟨[Event.stat src], Res.panic (PanicValue.text (str "Sourcefile does not exist"))⟩) ∧
    (∃ code, exitStatus (main env).res = some code ∧ code ≠ 0) ∧
    ∀ ev ∈ (main env).trace, ev.isBus = false ∧ ev.isCopy = false := by
  rcases h with hlen | ⟨prog, src, rest, err, hargs, hstat⟩
  · have hmain : main env = ⟨[Event.println usageLine], Res.exit 1⟩ := by
      unfold main parseArgs
      simp [hlen, Run.bind]
    refine ⟨Or.inl hmain, ⟨1, by rw [hmain]; rfl, by decide⟩, ?_⟩
    intro ev hev
    rw [hmain] at hev
    simp at hev
    subst hev
    exact ⟨rfl, rfl⟩
  · have hpa := parseArgs_of_missing env prog src rest err hargs hstat
    have hmain : main env =
        ⟨[Event.stat src], Res.panic (PanicValue.text (str "Sourcefile does not exist"))⟩ := by
      unfold main
      rw [hpa]
      rfl
    refine ⟨Or.inr ⟨src, hmain⟩, ⟨2, by rw [hmain]; rfl, by decide⟩, ?_⟩
    intro ev hev
    rw [hmain] at hev
    simp at hev
    subst hev
    exact ⟨rfl, rfl⟩

/-- C10 at a concrete run: the source `/tmp/none.txt` does not exist. -/
theorem main_aborts_before_bus_scenario :
    missingEnv.args = str "xdg-desktop-portal-copy-file" :: str "/tmp/none.txt" :: [] ∧
    missingEnv.stat (str "/tmp/none.txt") =
      StatResult.error true (errorsNew (str "no such file or directory")) ∧
    (∃ code, exitStatus (main missingEnv).res = some code ∧ code ≠ 0) ∧
    ∀ ev ∈ (main missingEnv).trace, ev.isBus = false ∧ ev.isCopy = false :=
  ⟨rfl, rfl,
    (main_aborts_before_bus missingEnv
      (Or.inr ⟨str "xdg-desktop-portal-copy-file", str "/tmp/none.txt", [],
        errorsNew (str "no such file or directory"), rfl, rfl⟩)).2⟩

end PortalCopy
